import Mathlib

/-!
SSTP client protocol definitions (`src/libsstp.h`)

A shallow embedding of the constants, enumerations and wire structures that
`libsstp.h` declares, followed by the packet and attribute decoders that the
header only declares (their bodies are modelled from the specification and are
marked as such).

Integers are natural numbers; a field of `w` bits holds the values below `2 ^ w`.
Byte buffers are lists of natural numbers, multi-byte fields are big-endian.
-/

namespace Sstp

/-! ## C types and structure layout -/

/-- The C types that occur in the wire structures of `libsstp.h`. -/
inductive CType where
  | uint8_t : CType
  | uint16_t : CType
  | uint32_t : CType
  | unsigned_char : CType
  | pid_t : CType
  | timeval : CType
  | array : CType → Nat → CType
  deriving DecidableEq, Repr

/-- Size in bytes of a C type (`sizeof`); `pid_t` is an `int` and `struct timeval` two `long`s
(the LP64 sizes of the system headers that `libsstp.h` includes). -/
def CType.sizeof : CType → Nat
  | .uint8_t => 1
  | .uint16_t => 2
  | .uint32_t => 4
  | .unsigned_char => 1
  | .pid_t => 4
  | .timeval => 16
  | .array e n => n * e.sizeof

/-- Alignment in bytes of a C type (natural alignment; an array has the alignment of its element). -/
def CType.alignof : CType → Nat
  | .uint8_t => 1
  | .uint16_t => 2
  | .uint32_t => 4
  | .unsigned_char => 1
  | .pid_t => 4
  | .timeval => 8
  | .array e _ => e.alignof

/-- One member of a C structure: its name and its type. -/
structure Field where
  name : String
  ctype : CType
  deriving DecidableEq, Repr

/-- Round `off` up to the next multiple of `a`. -/
def align_up (off a : Nat) : Nat := (off + a - 1) / a * a

/-- One laid-out member: name, byte offset, byte size. -/
structure Slot where
  name : String
  offset : Nat
  size : Nat
  deriving DecidableEq, Repr

/-- Lay the members out in declaration order starting at byte `off`, each at its natural alignment. -/
def layout_from (off : Nat) : List Field → List Slot
  | [] => []
  | f :: fs =>
    let o := align_up off f.ctype.alignof
    ⟨f.name, o, f.ctype.sizeof⟩ :: layout_from (o + f.ctype.sizeof) fs

/-- Layout of a structure: its members in declaration order with their offsets and sizes. -/
def layout (fs : List Field) : List Slot := layout_from 0 fs

/-- First byte after the last member. -/
def layout_end (fs : List Field) : Nat :=
  ((layout fs).map (fun s => s.offset + s.size)).foldl max 0

/-- Alignment of a structure: the largest alignment of its members. -/
def struct_alignof (fs : List Field) : Nat :=
  (fs.map (fun f => f.ctype.alignof)).foldl max 1

/-- Size of a structure (`sizeof`): the end of the last member rounded up to the structure alignment. -/
def struct_sizeof (fs : List Field) : Nat := align_up (layout_end fs) (struct_alignof fs)

/-- Width in bits of the member called `n`, if the structure has one. -/
def field_bits (fs : List Field) (n : String) : Option Nat :=
  (fs.find? (fun f => f.name == n)).map (fun f => 8 * f.ctype.sizeof)

/-- Size in bytes of the member called `n`, if the structure has one. -/
def field_size (fs : List Field) (n : String) : Option Nat :=
  (fs.find? (fun f => f.name == n)).map (fun f => f.ctype.sizeof)

/-- Byte offset of the member called `n`, if the structure has one. -/
def field_offset (fs : List Field) (n : String) : Option Nat :=
  ((layout fs).find? (fun s => s.name == n)).map (fun s => s.offset)

/-! ## SSTP properties -/

def SSTP_VERSION : Nat := 0x10
def SSTP_MIN_LEN : Nat := 4
def SSTP_MAX_ATTR : Nat := 256
def SSTP_NEGOCIATION_TIMER : Nat := 5
def SSTP_MAX_BUFFER_SIZE : Nat := 1024

/-! ## Enumerations -/

/-- SSTP packet type. -/
inductive packet_types where
  | SSTP_DATA_PACKET
  | SSTP_CONTROL_PACKET
  deriving DecidableEq, Repr

def packet_types.code : packet_types → Nat
  | .SSTP_DATA_PACKET => 0x00
  | .SSTP_CONTROL_PACKET => 0x01

def packet_types.all : List packet_types :=
  [.SSTP_DATA_PACKET, .SSTP_CONTROL_PACKET]

/-- SSTP protocol type. -/
inductive sstp_encapsulated_protocol_types where
  | SSTP_ENCAPSULATED_PROTOCOL_PPP
  deriving DecidableEq, Repr

def sstp_encapsulated_protocol_types.code : sstp_encapsulated_protocol_types → Nat
  | .SSTP_ENCAPSULATED_PROTOCOL_PPP => 0x0001

/-- SSTP control message types. -/
inductive control_messages_types where
  | SSTP_MSG_CALL_CONNECT_REQUEST
  | SSTP_MSG_CALL_CONNECT_ACK
  | SSTP_MSG_CALL_CONNECT_NAK
  | SSTP_MSG_CALL_CONNECTED
  | SSTP_MSG_CALL_ABORT
  | SSTP_MSG_CALL_DISCONNECT
  | SSTP_MSG_CALL_DISCONNECT_ACK
  | SSTP_MSG_ECHO_REQUEST
  | SSTP_MSG_ECHO_RESPONSE
  deriving DecidableEq, Repr

def control_messages_types.code : control_messages_types → Nat
  | .SSTP_MSG_CALL_CONNECT_REQUEST => 0x0001
  | .SSTP_MSG_CALL_CONNECT_ACK => 0x0002
  | .SSTP_MSG_CALL_CONNECT_NAK => 0x0003
  | .SSTP_MSG_CALL_CONNECTED => 0x0004
  | .SSTP_MSG_CALL_ABORT => 0x0005
  | .SSTP_MSG_CALL_DISCONNECT => 0x0006
  | .SSTP_MSG_CALL_DISCONNECT_ACK => 0x0007
  | .SSTP_MSG_ECHO_REQUEST => 0x0008
  | .SSTP_MSG_ECHO_RESPONSE => 0x0009

/-- The enumerators of `control_messages_types` in declaration order. -/
def control_messages_types.all : List control_messages_types :=
  [.SSTP_MSG_CALL_CONNECT_REQUEST, .SSTP_MSG_CALL_CONNECT_ACK, .SSTP_MSG_CALL_CONNECT_NAK,
   .SSTP_MSG_CALL_CONNECTED, .SSTP_MSG_CALL_ABORT, .SSTP_MSG_CALL_DISCONNECT,
   .SSTP_MSG_CALL_DISCONNECT_ACK, .SSTP_MSG_ECHO_REQUEST, .SSTP_MSG_ECHO_RESPONSE]

/-- SSTP attribute message type. -/
inductive attr_types where
  | SSTP_ATTRIB_NO_ERROR
  | SSTP_ATTRIB_ENCAPSULATED_PROTOCOL_ID
  | SSTP_ATTRIB_STATUS_INFO
  | SSTP_ATTRIB_CRYPTO_BINDING
  | SSTP_ATTRIB_CRYPTO_BINDING_REQ
  deriving DecidableEq, Repr

def attr_types.code : attr_types → Nat
  | .SSTP_ATTRIB_NO_ERROR => 0x00
  | .SSTP_ATTRIB_ENCAPSULATED_PROTOCOL_ID => 0x01
  | .SSTP_ATTRIB_STATUS_INFO => 0x02
  | .SSTP_ATTRIB_CRYPTO_BINDING => 0x03
  | .SSTP_ATTRIB_CRYPTO_BINDING_REQ => 0x04

/-- The enumerators of `attr_types` in declaration order. -/
def attr_types.all : List attr_types :=
  [.SSTP_ATTRIB_NO_ERROR, .SSTP_ATTRIB_ENCAPSULATED_PROTOCOL_ID, .SSTP_ATTRIB_STATUS_INFO,
   .SSTP_ATTRIB_CRYPTO_BINDING, .SSTP_ATTRIB_CRYPTO_BINDING_REQ]

/-- Crypto binding request attribute: hash protocol selectors. -/
inductive crypto_req_attrs where
  | CERT_HASH_PROTOCOL_SHA1
  | CERT_HASH_PROTOCOL_SHA256
  deriving DecidableEq, Repr

def crypto_req_attrs.code : crypto_req_attrs → Nat
  | .CERT_HASH_PROTOCOL_SHA1 => 0x01
  | .CERT_HASH_PROTOCOL_SHA256 => 0x02

/-- Status info attribute: status codes. -/
inductive attr_status where
  | ATTRIB_STATUS_NO_ERROR
  | ATTRIB_STATUS_DUPLICATE_ATTRIBUTE
  | ATTRIB_STATUS_UNRECOGNIZED_ATTRIBUTE
  | ATTRIB_STATUS_INVALID_ATTRIB_VALUE_LENGTH
  | ATTRIB_STATUS_VALUE_NOT_SUPPORTED
  | ATTRIB_STATUS_UNACCEPTED_FRAME_RECEIVED
  | ATTRIB_STATUS_RETRY_COUNT_EXCEEDED
  | ATTRIB_STATUS_INVALID_FRAME_RECEIVED
  | ATTRIB_STATUS_NEGOTIATION_TIMEOUT
  | ATTRIB_STATUS_ATTRIB_NOT_SUPPORTED_IN_MSG
  | ATTRIB_STATUS_REQUIRED_ATTRIBUTE_MISSING
  | ATTRIB_STATUS_STATUS_INFO_NOT_SUPPORTED_IN_MSG
  deriving DecidableEq, Repr

def attr_status.code : attr_status → Nat
  | .ATTRIB_STATUS_NO_ERROR => 0x00000000
  | .ATTRIB_STATUS_DUPLICATE_ATTRIBUTE => 0x00000001
  | .ATTRIB_STATUS_UNRECOGNIZED_ATTRIBUTE => 0x00000002
  | .ATTRIB_STATUS_INVALID_ATTRIB_VALUE_LENGTH => 0x00000003
  | .ATTRIB_STATUS_VALUE_NOT_SUPPORTED => 0x00000004
  | .ATTRIB_STATUS_UNACCEPTED_FRAME_RECEIVED => 0x00000005
  | .ATTRIB_STATUS_RETRY_COUNT_EXCEEDED => 0x00000006
  | .ATTRIB_STATUS_INVALID_FRAME_RECEIVED => 0x00000007
  | .ATTRIB_STATUS_NEGOTIATION_TIMEOUT => 0x00000008
  | .ATTRIB_STATUS_ATTRIB_NOT_SUPPORTED_IN_MSG => 0x00000009
  | .ATTRIB_STATUS_REQUIRED_ATTRIBUTE_MISSING => 0x0000000a
  | .ATTRIB_STATUS_STATUS_INFO_NOT_SUPPORTED_IN_MSG => 0x0000000b

/-- The names of the control message types, indexed by their code (index 0 is a placeholder). -/
def control_messages_types_str : List String :=
  ["",
   "SSTP_MSG_CALL_CONNECT_REQUEST",
   "SSTP_MSG_CALL_CONNECT_ACK",
   "SSTP_MSG_CALL_CONNECT_NAK",
   "SSTP_MSG_CALL_CONNECTED",
   "SSTP_MSG_CALL_ABORT",
   "SSTP_MSG_CALL_DISCONNECT",
   "SSTP_MSG_CALL_DISCONNECT_ACK",
   "SSTP_MSG_ECHO_REQUEST",
   "SSTP_MSG_ECHO_RESPONSE"]

/-- The identifier of each enumerator of `control_messages_types`. -/
def control_messages_types.name : control_messages_types → String
  | .SSTP_MSG_CALL_CONNECT_REQUEST => "SSTP_MSG_CALL_CONNECT_REQUEST"
  | .SSTP_MSG_CALL_CONNECT_ACK => "SSTP_MSG_CALL_CONNECT_ACK"
  | .SSTP_MSG_CALL_CONNECT_NAK => "SSTP_MSG_CALL_CONNECT_NAK"
  | .SSTP_MSG_CALL_CONNECTED => "SSTP_MSG_CALL_CONNECTED"
  | .SSTP_MSG_CALL_ABORT => "SSTP_MSG_CALL_ABORT"
  | .SSTP_MSG_CALL_DISCONNECT => "SSTP_MSG_CALL_DISCONNECT"
  | .SSTP_MSG_CALL_DISCONNECT_ACK => "SSTP_MSG_CALL_DISCONNECT_ACK"
  | .SSTP_MSG_ECHO_REQUEST => "SSTP_MSG_ECHO_REQUEST"
  | .SSTP_MSG_ECHO_RESPONSE => "SSTP_MSG_ECHO_RESPONSE"

/-- The names of the attribute types, indexed by their code. -/
def attr_types_str : List String :=
  ["SSTP_ATTRIB_NO_ERROR",
   "SSTP_ATTRIB_ENCAPSULATED_PROTOCOL_ID",
   "SSTP_ATTRIB_STATUS_INFO",
   "SSTP_ATTRIB_CRYPTO_BINDING",
   "SSTP_ATTRIB_CRYPTO_BINDING_REQ"]

/-- The identifier of each enumerator of `attr_types`. -/
def attr_types.name : attr_types → String
  | .SSTP_ATTRIB_NO_ERROR => "SSTP_ATTRIB_NO_ERROR"
  | .SSTP_ATTRIB_ENCAPSULATED_PROTOCOL_ID => "SSTP_ATTRIB_ENCAPSULATED_PROTOCOL_ID"
  | .SSTP_ATTRIB_STATUS_INFO => "SSTP_ATTRIB_STATUS_INFO"
  | .SSTP_ATTRIB_CRYPTO_BINDING => "SSTP_ATTRIB_CRYPTO_BINDING"
  | .SSTP_ATTRIB_CRYPTO_BINDING_REQ => "SSTP_ATTRIB_CRYPTO_BINDING_REQ"

/-- The names of the hash protocol selectors. -/
def crypto_req_attrs_str : List String :=
  ["CERT_HASH_PROTOCOL_SHA1",
   "CERT_HASH_PROTOCOL_SHA256"]

/-- The identifier of each enumerator of `crypto_req_attrs`. -/
def crypto_req_attrs.name : crypto_req_attrs → String
  | .CERT_HASH_PROTOCOL_SHA1 => "CERT_HASH_PROTOCOL_SHA1"
  | .CERT_HASH_PROTOCOL_SHA256 => "CERT_HASH_PROTOCOL_SHA256"

/-- The names of the status codes, indexed by their code. -/
def attrib_status_str : List String :=
  ["ATTRIB_STATUS_NO_ERROR",
   "ATTRIB_STATUS_DUPLICATE_ATTRIBUTE",
   "ATTRIB_STATUS_UNRECOGNIZED_ATTRIBUTE",
   "ATTRIB_STATUS_INVALID_ATTRIB_VALUE_LENGTH",
   "ATTRIB_STATUS_VALUE_NOT_SUPPORTED",
   "ATTRIB_STATUS_UNACCEPTED_FRAME_RECEIVED",
   "ATTRIB_STATUS_RETRY_COUNT_EXCEEDED",
   "ATTRIB_STATUS_INVALID_FRAME_RECEIVED",
   "ATTRIB_STATUS_NEGOTIATION_TIMEOUT",
   "ATTRIB_STATUS_ATTRIB_NOT_SUPPORTED_IN_MSG",
   "ATTRIB_STATUS_REQUIRED_ATTRIBUTE_MISSING",
   "ATTRIB_STATUS_STATUS_INFO_NOT_SUPPORTED_IN_MSG"]

/-- The identifier of each enumerator of `attr_status`. -/
def attr_status.name : attr_status → String
  | .ATTRIB_STATUS_NO_ERROR => "ATTRIB_STATUS_NO_ERROR"
  | .ATTRIB_STATUS_DUPLICATE_ATTRIBUTE => "ATTRIB_STATUS_DUPLICATE_ATTRIBUTE"
  | .ATTRIB_STATUS_UNRECOGNIZED_ATTRIBUTE => "ATTRIB_STATUS_UNRECOGNIZED_ATTRIBUTE"
  | .ATTRIB_STATUS_INVALID_ATTRIB_VALUE_LENGTH => "ATTRIB_STATUS_INVALID_ATTRIB_VALUE_LENGTH"
  | .ATTRIB_STATUS_VALUE_NOT_SUPPORTED => "ATTRIB_STATUS_VALUE_NOT_SUPPORTED"
  | .ATTRIB_STATUS_UNACCEPTED_FRAME_RECEIVED => "ATTRIB_STATUS_UNACCEPTED_FRAME_RECEIVED"
  | .ATTRIB_STATUS_RETRY_COUNT_EXCEEDED => "ATTRIB_STATUS_RETRY_COUNT_EXCEEDED"
  | .ATTRIB_STATUS_INVALID_FRAME_RECEIVED => "ATTRIB_STATUS_INVALID_FRAME_RECEIVED"
  | .ATTRIB_STATUS_NEGOTIATION_TIMEOUT => "ATTRIB_STATUS_NEGOTIATION_TIMEOUT"
  | .ATTRIB_STATUS_ATTRIB_NOT_SUPPORTED_IN_MSG => "ATTRIB_STATUS_ATTRIB_NOT_SUPPORTED_IN_MSG"
  | .ATTRIB_STATUS_REQUIRED_ATTRIBUTE_MISSING => "ATTRIB_STATUS_REQUIRED_ATTRIBUTE_MISSING"
  | .ATTRIB_STATUS_STATUS_INFO_NOT_SUPPORTED_IN_MSG =>
    "ATTRIB_STATUS_STATUS_INFO_NOT_SUPPORTED_IN_MSG"

/-- The enumerators of `attr_status` in declaration order. -/
def attr_status.all : List attr_status :=
  [.ATTRIB_STATUS_NO_ERROR, .ATTRIB_STATUS_DUPLICATE_ATTRIBUTE,
   .ATTRIB_STATUS_UNRECOGNIZED_ATTRIBUTE, .ATTRIB_STATUS_INVALID_ATTRIB_VALUE_LENGTH,
   .ATTRIB_STATUS_VALUE_NOT_SUPPORTED, .ATTRIB_STATUS_UNACCEPTED_FRAME_RECEIVED,
   .ATTRIB_STATUS_RETRY_COUNT_EXCEEDED, .ATTRIB_STATUS_INVALID_FRAME_RECEIVED,
   .ATTRIB_STATUS_NEGOTIATION_TIMEOUT, .ATTRIB_STATUS_ATTRIB_NOT_SUPPORTED_IN_MSG,
   .ATTRIB_STATUS_REQUIRED_ATTRIBUTE_MISSING, .ATTRIB_STATUS_STATUS_INFO_NOT_SUPPORTED_IN_MSG]

/-- The sstp client status. -/
inductive client_status where
  | CLIENT_CALL_DISCONNECTED
  | CLIENT_CONNECT_REQUEST_SENT
  | CLIENT_CONNECT_ACK_RECEIVED
  | CLIENT_CALL_CONNECTED
  deriving DecidableEq, Repr

def client_status.code : client_status → Nat
  | .CLIENT_CALL_DISCONNECTED => 0
  | .CLIENT_CONNECT_REQUEST_SENT => 1
  | .CLIENT_CONNECT_ACK_RECEIVED => 2
  | .CLIENT_CALL_CONNECTED => 3

/-- The enumerators of `client_status` in declaration order. -/
def client_status.all : List client_status :=
  [.CLIENT_CALL_DISCONNECTED, .CLIENT_CONNECT_REQUEST_SENT, .CLIENT_CONNECT_ACK_RECEIVED,
   .CLIENT_CALL_CONNECTED]

/-- The client status stored as the given value of the `state` member, if there is one. -/
def client_status.of_code (c : Nat) : Option client_status :=
  client_status.all.find? (fun s => s.code == c)

/-- The names of the client states, indexed by their code. -/
def client_status_str : List String :=
  ["CLIENT_CALL_DISCONNECTED",
   "CLIENT_CONNECT_REQUEST_SENT",
   "CLIENT_CONNECT_ACK_RECEIVED",
   "CLIENT_CALL_CONNECTED"]

/-- The identifier of each enumerator of `client_status`. -/
def client_status.name : client_status → String
  | .CLIENT_CALL_DISCONNECTED => "CLIENT_CALL_DISCONNECTED"
  | .CLIENT_CONNECT_REQUEST_SENT => "CLIENT_CONNECT_REQUEST_SENT"
  | .CLIENT_CONNECT_ACK_RECEIVED => "CLIENT_CONNECT_ACK_RECEIVED"
  | .CLIENT_CALL_CONNECTED => "CLIENT_CALL_CONNECTED"

/-! ## Data structures -/

def sstp_header_t : List Field :=
  [⟨"version", .uint8_t⟩, ⟨"reserved", .uint8_t⟩, ⟨"length", .uint16_t⟩]

def sstp_control_header_t : List Field :=
  [⟨"message_type", .uint16_t⟩, ⟨"num_attributes", .uint16_t⟩]

def sstp_attribute_header_t : List Field :=
  [⟨"reserved", .uint8_t⟩, ⟨"attribute_id", .uint8_t⟩, ⟨"packet_length", .uint16_t⟩]

def sstp_attribute_crypto_bind_req_t : List Field :=
  [⟨"hash_bitmask", .uint32_t⟩, ⟨"nonce", .array .uint32_t 4⟩]

def sstp_attribute_status_info_t : List Field :=
  [⟨"attrib_id", .uint32_t⟩, ⟨"status", .uint32_t⟩]

def sstp_attribute_crypto_bind_t : List Field :=
  [⟨"hash_bitmask", .uint32_t⟩, ⟨"nonce", .array .uint32_t 8⟩,
   ⟨"certhash", .array .uint32_t 8⟩, ⟨"cmac", .array .uint32_t 8⟩]

/-- The sstp client context. -/
def sstp_context_t : List Field :=
  [⟨"state", .unsigned_char⟩, ⟨"retry", .unsigned_char⟩, ⟨"pppd_pid", .pid_t⟩,
   ⟨"negociation_timer", .timeval⟩, ⟨"hello_timer", .timeval⟩,
   ⟨"hash_algorithm", .uint8_t⟩, ⟨"nonce", .array .uint32_t 8⟩,
   ⟨"certhash", .array .uint32_t 8⟩, ⟨"cmac", .array .uint32_t 8⟩]

/-- The bitmask obtained by or-ing a collection of hash selectors. -/
def hash_bitmask_of : List crypto_req_attrs → Nat
  | [] => 0
  | a :: as => a.code ||| hash_bitmask_of as

/-- Modelled from the spec: digest sizes in bytes of the two hash algorithms (the header
declares the selectors only; §4.3 stores SHA-1 as 20 bytes in a 32-byte field, SHA-256 is 256 bits). -/
def crypto_req_attrs.digest_length : crypto_req_attrs → Nat
  | .CERT_HASH_PROTOCOL_SHA1 => 20
  | .CERT_HASH_PROTOCOL_SHA256 => 32

/-- Modelled from the spec: the error conditions of the taxonomy of §7 that are reported to
the peer (the header declares only the status codes, not the conditions). -/
inductive ErrorCondition where
  | DuplicateAttribute
  | UnrecognizedAttribute
  | InvalidAttribValueLength
  | ValueNotSupported
  | RetryCountExceeded
  | InvalidFrameReceived
  | NegotiationTimeout
  | RequiredAttributeMissing
  deriving DecidableEq, Repr

/-- Modelled from the spec: the status code of `attr_status` reported for each condition of §7. -/
def ErrorCondition.status : ErrorCondition → attr_status
  | .DuplicateAttribute => .ATTRIB_STATUS_DUPLICATE_ATTRIBUTE
  | .UnrecognizedAttribute => .ATTRIB_STATUS_UNRECOGNIZED_ATTRIBUTE
  | .InvalidAttribValueLength => .ATTRIB_STATUS_INVALID_ATTRIB_VALUE_LENGTH
  | .ValueNotSupported => .ATTRIB_STATUS_VALUE_NOT_SUPPORTED
  | .RetryCountExceeded => .ATTRIB_STATUS_RETRY_COUNT_EXCEEDED
  | .InvalidFrameReceived => .ATTRIB_STATUS_INVALID_FRAME_RECEIVED
  | .NegotiationTimeout => .ATTRIB_STATUS_NEGOTIATION_TIMEOUT
  | .RequiredAttributeMissing => .ATTRIB_STATUS_REQUIRED_ATTRIBUTE_MISSING

/-! ## Packet and attribute decoding

`libsstp.h` declares `sstp_decode`, `is_valid_header`, `is_control_packet`,
`create_attribute` and `sstp_decode_attributes` without bodies; they are modelled from
§4.1, §4.2 and §7 of the specification. -/

/-- Modelled from the spec: the decode failures named by §4.1 and §4.2 (the header declares
the decoders as returning `int` and no error type). -/
inductive DecodeError where
  | InvalidFrame
  | Truncated
  | InvalidAttribValueLength
  deriving DecidableEq, Repr

/-- Modelled from the spec: the condition of §7 under which a decode failure is reported
(bad or unparseable header: InvalidFrameReceived; bad attribute length: InvalidAttribValueLength). -/
def DecodeError.condition : DecodeError → ErrorCondition
  | .InvalidFrame => .InvalidFrameReceived
  | .Truncated => .InvalidFrameReceived
  | .InvalidAttribValueLength => .InvalidAttribValueLength

/-- A 16-bit big-endian field read from two bytes. -/
def be16 (hi lo : Nat) : Nat := hi * 256 + lo

/-- Modelled from the spec: a decoded packet of §3, its kind and its payload bytes. -/
structure Packet where
  kind : packet_types
  payload : List Nat
  deriving DecidableEq, Repr

/-- Modelled from the spec: `is_control_packet` has no body in the header; by §4.1 and §6 the
low bit of the reserved byte marks a control packet. -/
def is_control_packet (reserved : Nat) : Bool :=
  reserved &&& packet_types.SSTP_CONTROL_PACKET.code == packet_types.SSTP_CONTROL_PACKET.code

/-- Modelled from the spec: `is_valid_header` has no body in the header; by §4.1 the version
must be the fixed one (else InvalidFrame), the declared length must lie between the minimum
header size and the maximum buffer size (else InvalidFrame) and must not exceed the bytes
actually present (else Truncated). -/
def is_valid_header (buf : List Nat) : Except DecodeError Unit :=
  match buf with
  | version :: _ :: hi :: lo :: _ =>
    if version ≠ SSTP_VERSION then .error .InvalidFrame
    else if be16 hi lo < SSTP_MIN_LEN ∨ SSTP_MAX_BUFFER_SIZE < be16 hi lo then .error .InvalidFrame
    else if buf.length < be16 hi lo then .error .Truncated
    else .ok ()
  | _ => .error .Truncated

/-- Modelled from the spec: `sstp_decode` has no body in the header; by §4.1 it validates the
header, classifies the packet from the control flag of the reserved byte and returns the
payload, the declared length less the header. -/
def sstp_decode (buf : List Nat) : Except DecodeError Packet :=
  match is_valid_header buf with
  | .error e => .error e
  | .ok _ =>
    match buf with
    | _ :: reserved :: hi :: lo :: rest =>
      .ok ⟨if is_control_packet reserved then .SSTP_CONTROL_PACKET else .SSTP_DATA_PACKET,
           rest.take (be16 hi lo - struct_sizeof sstp_header_t)⟩
    | _ => .error .Truncated

/-- Modelled from the spec: an attribute of §3, the type byte as received and the value bytes. -/
structure Attribute where
  attribute_id : Nat
  value : List Nat
  deriving DecidableEq, Repr

/-- The attribute type with the given code, if it is one of the known ones. -/
def attr_types.of_code (c : Nat) : Option attr_types :=
  attr_types.all.find? (fun t => t.code == c)

/-- Modelled from the spec: by §4.2 an attribute whose type is outside the known set is kept
and the message is flagged. -/
def has_unrecognized_attribute (as : List Attribute) : Bool :=
  as.any (fun a => (attr_types.of_code a.attribute_id).isNone)

/-- Modelled from the spec: `create_attribute` has no body in the header; by §4.2 an attribute
is encoded as a reserved byte, the type byte, the 16-bit length of header plus value, and the value. -/
def create_attribute (attribute_id : Nat) (data : List Nat) : List Nat :=
  let len := (struct_sizeof sstp_attribute_header_t + data.length) % 2 ^ 16
  0 :: attribute_id % 2 ^ 8 :: len / 256 :: len % 256 :: data

/-- Modelled from the spec: the encoding of §4.2 of a list of attributes, in list order. -/
def encode_attributes : List Attribute → List Nat
  | [] => []
  | a :: as => create_attribute a.attribute_id a.value ++ encode_attributes as

/-- Modelled from the spec: `sstp_decode_attributes` has no body in the header; by §4.2 it reads
`count` attributes, each a 4-byte header whose declared length must be at least the header and
must not run past the remaining bytes (else InvalidAttribValueLength), and advances by the
declared length; running out of headers before `count` are read is InvalidFrame. -/
def sstp_decode_attributes : Nat → List Nat → Except DecodeError (List Attribute)
  | 0, _ => .ok []
  | count + 1, _ :: attribute_id :: hi :: lo :: rest =>
    let hdr := struct_sizeof sstp_attribute_header_t
    if be16 hi lo < hdr ∨ rest.length + hdr < be16 hi lo then .error .InvalidAttribValueLength
    else
      match sstp_decode_attributes count (rest.drop (be16 hi lo - hdr)) with
      | .error e => .error e
      | .ok as => .ok (⟨attribute_id, rest.take (be16 hi lo - hdr)⟩ :: as)
  | _ + 1, _ => .error .InvalidFrame

/-- The control message type with the given code, if it is one of the known ones. -/
def control_messages_types.of_code (c : Nat) : Option control_messages_types :=
  control_messages_types.all.find? (fun t => t.code == c)

/-- Modelled from the spec: a control message of §3, its type and its attributes in order. -/
structure ControlMessage where
  message_type : control_messages_types
  attributes : List Attribute
  deriving DecidableEq, Repr

/-- Modelled from the spec: decoding of the payload of a control packet, which the header
assigns to no declared function: the control header of §6 (message type, attribute count)
followed by the attributes of §4.2. By §4.4 an unknown message type is InvalidFrame, as is by
§7 a header that cannot be read; by §3 the count must not exceed `SSTP_MAX_ATTR`. -/
def sstp_decode_control (payload : List Nat) : Except DecodeError ControlMessage :=
  match payload with
  | mh :: ml :: nh :: nl :: rest =>
    match control_messages_types.of_code (be16 mh ml) with
    | none => .error .InvalidFrame
    | some t =>
      if SSTP_MAX_ATTR < be16 nh nl then .error .InvalidFrame
      else
        match sstp_decode_attributes (be16 nh nl) rest with
        | .error e => .error e
        | .ok as => .ok ⟨t, as⟩
  | _ => .error .InvalidFrame

/-- Modelled from the spec: what a buffer decodes to by §2, a data payload or a control message. -/
inductive Message where
  | data : List Nat → Message
  | control : ControlMessage → Message
  deriving DecidableEq, Repr

/-- Modelled from the spec: the inbound data flow of §2, the packet codec followed for a control
packet by the decoding of its payload. -/
def sstp_decode_message (buf : List Nat) : Except DecodeError Message :=
  match sstp_decode buf with
  | .error e => .error e
  | .ok p =>
    match p.kind with
    | .SSTP_DATA_PACKET => .ok (.data p.payload)
    | .SSTP_CONTROL_PACKET =>
      match sstp_decode_control p.payload with
      | .error e => .error e
      | .ok m => .ok (.control m)

/-- Modelled from the spec: the encode failure of §4.1. -/
inductive EncodeError where
  | FrameTooLarge
  deriving DecidableEq, Repr

/-- Modelled from the spec: `send_sstp_packet` has no body in the header; by §4.1 the bytes sent
are the header (version, the packet kind in the reserved byte, the 16-bit total length) followed
by the payload, and a total above the maximum buffer size is FrameTooLarge. -/
def send_sstp_packet (kind : packet_types) (data : List Nat) : Except EncodeError (List Nat) :=
  let total := struct_sizeof sstp_header_t + data.length
  if SSTP_MAX_BUFFER_SIZE < total then .error .FrameTooLarge
  else .ok (SSTP_VERSION :: kind.code :: total / 256 % 256 :: total % 256 :: data)

/-- Modelled from the spec: `select_algorithm` of §4.3 (the header declares only
`crypto_set_certhash` and `crypto_set_binding`, without bodies): of the low byte of the offered
bitmask, SHA-256 if its bit is set, else SHA-1 if its bit is set, else ValueNotSupported. -/
def select_algorithm (offered_bitmask : Nat) : Except ErrorCondition crypto_req_attrs :=
  let low := offered_bitmask % 2 ^ 8
  if low &&& crypto_req_attrs.CERT_HASH_PROTOCOL_SHA256.code ≠ 0 then
    .ok .CERT_HASH_PROTOCOL_SHA256
  else if low &&& crypto_req_attrs.CERT_HASH_PROTOCOL_SHA1.code ≠ 0 then
    .ok .CERT_HASH_PROTOCOL_SHA1
  else .error .ValueNotSupported

/-! ## Enumerations and structure layouts -/

/-- C1: `control_messages_types` has exactly nine enumerators, coded 1..9 in the order
Call-Connect-Request, Call-Connect-Ack, Call-Connect-Nak, Call-Connected, Call-Abort,
Call-Disconnect, Call-Disconnect-Ack, Echo-Request, Echo-Response; the codes are pairwise
distinct and each fits in the 16-bit `message_type` member of `sstp_control_header_t`. -/
theorem control_messages_types_codes :
    (∀ m : control_messages_types, m ∈ control_messages_types.all) ∧
    control_messages_types.all.length = 9 ∧
    control_messages_types.all =
      [.SSTP_MSG_CALL_CONNECT_REQUEST, .SSTP_MSG_CALL_CONNECT_ACK, .SSTP_MSG_CALL_CONNECT_NAK,
       .SSTP_MSG_CALL_CONNECTED, .SSTP_MSG_CALL_ABORT, .SSTP_MSG_CALL_DISCONNECT,
       .SSTP_MSG_CALL_DISCONNECT_ACK, .SSTP_MSG_ECHO_REQUEST, .SSTP_MSG_ECHO_RESPONSE] ∧
    control_messages_types.all.map control_messages_types.code = [1, 2, 3, 4, 5, 6, 7, 8, 9] ∧
    (∀ a b : control_messages_types, a.code = b.code → a = b) ∧
    field_bits sstp_control_header_t "message_type" = some 16 ∧
    (∀ m : control_messages_types, m.code < 2 ^ 16) := by
  refine ⟨?_, rfl, rfl, rfl, ?_, by decide, ?_⟩
  · intro m; cases m <;> decide
  · intro a b; cases a <;> cases b <;> decide
  · intro m; cases m <;> decide

/-- C2: `attr_types` has exactly five enumerators, coded 0..4 in the order No-Error,
Encapsulated-Protocol-Id, Status-Info, Crypto-Binding, Crypto-Binding-Request; the codes are
pairwise distinct and each fits in the 8-bit `attribute_id` member of `sstp_attribute_header_t`. -/
theorem attr_types_codes :
    (∀ t : attr_types, t ∈ attr_types.all) ∧
    attr_types.all.length = 5 ∧
    attr_types.all =
      [.SSTP_ATTRIB_NO_ERROR, .SSTP_ATTRIB_ENCAPSULATED_PROTOCOL_ID, .SSTP_ATTRIB_STATUS_INFO,
       .SSTP_ATTRIB_CRYPTO_BINDING, .SSTP_ATTRIB_CRYPTO_BINDING_REQ] ∧
    attr_types.all.map attr_types.code = [0, 1, 2, 3, 4] ∧
    (∀ a b : attr_types, a.code = b.code → a = b) ∧
    field_bits sstp_attribute_header_t "attribute_id" = some 8 ∧
    (∀ t : attr_types, t.code < 2 ^ 8) := by
  refine ⟨?_, rfl, rfl, rfl, ?_, by decide, ?_⟩
  · intro t; cases t <;> decide
  · intro a b; cases a <;> cases b <;> decide
  · intro t; cases t <;> decide

/-- C3: `sstp_header_t` is version (u8), reserved (u8), length (u16) in that order and occupies
exactly `SSTP_MIN_LEN` = 4 bytes; `SSTP_VERSION` is 0x10; the packet kinds are Data = 0x00 and
Control = 0x01, so a kind is Control exactly when bit 0 of the reserved byte carrying it is set,
and masking a reserved byte with the Control code tests exactly bit 0. -/
theorem sstp_header_layout :
    sstp_header_t = [⟨"version", .uint8_t⟩, ⟨"reserved", .uint8_t⟩, ⟨"length", .uint16_t⟩] ∧
    layout sstp_header_t = [⟨"version", 0, 1⟩, ⟨"reserved", 1, 1⟩, ⟨"length", 2, 2⟩] ∧
    struct_sizeof sstp_header_t = SSTP_MIN_LEN ∧
    SSTP_MIN_LEN = 4 ∧
    SSTP_VERSION = 0x10 ∧
    (∀ k : packet_types, k ∈ packet_types.all) ∧
    packet_types.SSTP_DATA_PACKET.code = 0x00 ∧
    packet_types.SSTP_CONTROL_PACKET.code = 0x01 ∧
    (∀ k : packet_types, k.code.testBit 0 = true ↔ k = .SSTP_CONTROL_PACKET) ∧
    (∀ r : Nat, r.testBit 0 = true ↔
      r &&& packet_types.SSTP_CONTROL_PACKET.code = packet_types.SSTP_CONTROL_PACKET.code) := by
  refine ⟨rfl, by decide, by decide, rfl, rfl, ?_, rfl, rfl, ?_, ?_⟩
  · intro k; cases k <;> decide
  · intro k; cases k <;> decide
  · intro r
    simp [packet_types.code, Nat.testBit_zero, Nat.and_one_is_mod]

/-- C4: every total packet size `n` with `SSTP_MIN_LEN ≤ n ≤ SSTP_MAX_BUFFER_SIZE` fits in the
16-bit `length` member of `sstp_header_t` without wrapping, and `SSTP_MIN_LEN ≤ SSTP_MAX_BUFFER_SIZE`. -/
theorem packet_size_fits_length_field (n : Nat) (_hmin : SSTP_MIN_LEN ≤ n)
    (hmax : n ≤ SSTP_MAX_BUFFER_SIZE) :
    field_bits sstp_header_t "length" = some 16 ∧ n % 2 ^ 16 = n ∧
    SSTP_MIN_LEN ≤ SSTP_MAX_BUFFER_SIZE := by
  refine ⟨by decide, ?_, by decide⟩
  have h : SSTP_MAX_BUFFER_SIZE = 1024 := rfl
  rw [h] at hmax
  exact Nat.mod_eq_of_lt (by omega)

/-- Witness for C4 at the maximal size 1024. -/
theorem packet_size_fits_length_field_witness :
    SSTP_MIN_LEN ≤ 1024 ∧ 1024 ≤ SSTP_MAX_BUFFER_SIZE ∧
    (field_bits sstp_header_t "length" = some 16 ∧ 1024 % 2 ^ 16 = 1024 ∧
      SSTP_MIN_LEN ≤ SSTP_MAX_BUFFER_SIZE) :=
  ⟨by decide, by decide, packet_size_fits_length_field 1024 (by decide) (by decide)⟩

/-- The or of any collection of hash selectors is below 4. -/
theorem hash_bitmask_of_lt (s : List crypto_req_attrs) : hash_bitmask_of s < 2 ^ 2 := by
  induction s with
  | nil => decide
  | cons a s ih =>
    have ha : a.code < 2 ^ 2 := by cases a <;> decide
    exact Nat.or_lt_two_pow ha ih

/-- C5: the hash selectors are single bits, SHA-1 = bit 0 (0x01) and SHA-256 = bit 1 (0x02);
they are disjoint, and the or of any collection of them lies in the low byte: stored in the
32-bit `hash_bitmask` member its upper 24 bits are zero. -/
theorem hash_selectors_low_byte :
    crypto_req_attrs.CERT_HASH_PROTOCOL_SHA1.code = 2 ^ 0 ∧
    crypto_req_attrs.CERT_HASH_PROTOCOL_SHA256.code = 2 ^ 1 ∧
    crypto_req_attrs.CERT_HASH_PROTOCOL_SHA1.code = 0x01 ∧
    crypto_req_attrs.CERT_HASH_PROTOCOL_SHA256.code = 0x02 ∧
    crypto_req_attrs.CERT_HASH_PROTOCOL_SHA1.code &&&
      crypto_req_attrs.CERT_HASH_PROTOCOL_SHA256.code = 0 ∧
    field_bits sstp_attribute_crypto_bind_req_t "hash_bitmask" = some 32 ∧
    field_bits sstp_attribute_crypto_bind_t "hash_bitmask" = some 32 ∧
    (∀ s : List crypto_req_attrs,
      hash_bitmask_of s < 2 ^ 8 ∧ hash_bitmask_of s % 2 ^ 32 = hash_bitmask_of s ∧
      (hash_bitmask_of s % 2 ^ 32) >>> 8 = 0) := by
  refine ⟨rfl, rfl, rfl, rfl, by decide, by decide, by decide, ?_⟩
  intro s
  have h := hash_bitmask_of_lt s
  have h32 : hash_bitmask_of s % 2 ^ 32 = hash_bitmask_of s := Nat.mod_eq_of_lt (by omega)
  refine ⟨by omega, h32, ?_⟩
  rw [h32, Nat.shiftRight_eq_div_pow]
  exact Nat.div_eq_of_lt (by omega)

/-- C6: the crypto-binding body has one layout whatever the hash algorithm: `hash_bitmask` is
4 bytes, `nonce`, `certhash` and `cmac` are 8 x 4 = 32 bytes each, 100 bytes in total; a 20-byte
SHA-1 digest and a 32-byte SHA-256 digest both fit in `certhash` and in `cmac`, and a SHA-1
digest leaves exactly 12 bytes of padding. -/
theorem crypto_bind_fixed_size :
    layout sstp_attribute_crypto_bind_t =
      [⟨"hash_bitmask", 0, 4⟩, ⟨"nonce", 4, 8 * 4⟩, ⟨"certhash", 36, 8 * 4⟩, ⟨"cmac", 68, 8 * 4⟩] ∧
    struct_sizeof sstp_attribute_crypto_bind_t = 100 ∧
    field_size sstp_attribute_crypto_bind_t "certhash" = some 32 ∧
    field_size sstp_attribute_crypto_bind_t "cmac" = some 32 ∧
    crypto_req_attrs.CERT_HASH_PROTOCOL_SHA1.digest_length = 20 ∧
    crypto_req_attrs.CERT_HASH_PROTOCOL_SHA256.digest_length = 32 ∧
    (∀ h : crypto_req_attrs,
      (∃ n, field_size sstp_attribute_crypto_bind_t "certhash" = some n ∧ h.digest_length ≤ n) ∧
      (∃ n, field_size sstp_attribute_crypto_bind_t "cmac" = some n ∧ h.digest_length ≤ n)) ∧
    (field_size sstp_attribute_crypto_bind_t "certhash").map
      (fun n => n - crypto_req_attrs.CERT_HASH_PROTOCOL_SHA1.digest_length) = some 12 ∧
    (field_size sstp_attribute_crypto_bind_t "cmac").map
      (fun n => n - crypto_req_attrs.CERT_HASH_PROTOCOL_SHA1.digest_length) = some 12 := by
  refine ⟨by decide, by decide, by decide, by decide, rfl, rfl, ?_, by decide, by decide⟩
  intro h
  cases h <;> exact ⟨⟨32, by decide, by decide⟩, ⟨32, by decide, by decide⟩⟩

/-- C7: the crypto-binding-request body is a 32-bit `hash_bitmask` followed by a `nonce` of
exactly 16 bytes (4 x u32), 20 bytes in total. -/
theorem crypto_bind_req_layout :
    sstp_attribute_crypto_bind_req_t =
      [⟨"hash_bitmask", .uint32_t⟩, ⟨"nonce", .array .uint32_t 4⟩] ∧
    layout sstp_attribute_crypto_bind_req_t = [⟨"hash_bitmask", 0, 4⟩, ⟨"nonce", 4, 16⟩] ∧
    field_bits sstp_attribute_crypto_bind_req_t "hash_bitmask" = some 32 ∧
    field_size sstp_attribute_crypto_bind_req_t "nonce" = some (4 * 4) ∧
    struct_sizeof sstp_attribute_crypto_bind_req_t = 20 := by
  refine ⟨rfl, by decide, by decide, by decide, by decide⟩

/-- C8: the eight error conditions of the taxonomy have their own status codes: the codes are
pairwise distinct, none is the No-Error code 0, and each fits in the 32-bit `status` member of
`sstp_attribute_status_info_t`. -/
theorem error_conditions_status_codes :
    (ErrorCondition.DuplicateAttribute.status.code = 1 ∧
      ErrorCondition.UnrecognizedAttribute.status.code = 2 ∧
      ErrorCondition.InvalidAttribValueLength.status.code = 3 ∧
      ErrorCondition.ValueNotSupported.status.code = 4 ∧
      ErrorCondition.RetryCountExceeded.status.code = 6 ∧
      ErrorCondition.InvalidFrameReceived.status.code = 7 ∧
      ErrorCondition.NegotiationTimeout.status.code = 8 ∧
      ErrorCondition.RequiredAttributeMissing.status.code = 10) ∧
    (∀ a b : ErrorCondition, a.status.code = b.status.code → a = b) ∧
    attr_status.ATTRIB_STATUS_NO_ERROR.code = 0 ∧
    (∀ e : ErrorCondition, e.status.code ≠ attr_status.ATTRIB_STATUS_NO_ERROR.code) ∧
    field_bits sstp_attribute_status_info_t "status" = some 32 ∧
    (∀ e : ErrorCondition, e.status.code < 2 ^ 32) := by
  refine ⟨⟨rfl, rfl, rfl, rfl, rfl, rfl, rfl, rfl⟩, ?_, rfl, ?_, by decide, ?_⟩
  · intro a b; cases a <;> cases b <;> decide
  · intro e; cases e <;> decide
  · intro e; cases e <;> decide

/-! ## Decoding -/

/-- The attribute header occupies four bytes. -/
theorem attribute_header_sizeof : struct_sizeof sstp_attribute_header_t = 4 := by decide

/-- The packet header occupies four bytes. -/
theorem header_sizeof : struct_sizeof sstp_header_t = 4 := by decide

/-- A header whose declared length is below the attribute header size is rejected as soon as
the decoder is asked for at least one more attribute. -/
theorem decode_attributes_short_head (count r id hi lo : Nat) (rest : List Nat)
    (hlen : be16 hi lo < 4) :
    sstp_decode_attributes (count + 1) (r :: id :: hi :: lo :: rest) =
      .error .InvalidAttribValueLength := by
  rw [sstp_decode_attributes]
  simp only [attribute_header_sizeof]
  rw [if_pos (Or.inl hlen)]

/-- A failure behind a well-formed attribute is the failure of the whole decoding. -/
theorem decode_attributes_skip (count : Nat) (a : Attribute) (rest : List Nat)
    (ha : a.value.length + 4 < 2 ^ 16) (e : DecodeError)
    (h : sstp_decode_attributes count rest = .error e) :
    sstp_decode_attributes (count + 1) (create_attribute a.attribute_id a.value ++ rest) =
      .error e := by
  have hmod : (4 + a.value.length) % 2 ^ 16 = 4 + a.value.length :=
    Nat.mod_eq_of_lt (by omega)
  have hbe : be16 ((4 + a.value.length) / 256) ((4 + a.value.length) % 256) =
      4 + a.value.length := by
    unfold be16; omega
  simp only [create_attribute, attribute_header_sizeof, hmod, List.cons_append]
  rw [sstp_decode_attributes]
  simp only [attribute_header_sizeof, hbe]
  have hno : ¬ (4 + a.value.length < 4 ∨
      (a.value ++ rest).length + 4 < 4 + a.value.length) := by
    simp only [List.length_append]; omega
  rw [if_neg hno]
  have hdrop : List.drop (4 + a.value.length - 4) (a.value ++ rest) = rest := by
    have : 4 + a.value.length - 4 = a.value.length := by omega
    rw [this, List.drop_left]
  rw [hdrop, h]

/-- A header with version 0x10, reserved 0x01 and a declared length below `SSTP_MIN_LEN` fails
header validation and packet decoding with InvalidFrame. -/
theorem decode_length_below_min (hi lo : Nat) (rest : List Nat)
    (hlen : be16 hi lo < SSTP_MIN_LEN) :
    is_valid_header (0x10 :: 0x01 :: hi :: lo :: rest) = .error .InvalidFrame ∧
    sstp_decode (0x10 :: 0x01 :: hi :: lo :: rest) = .error .InvalidFrame := by
  have hbad : is_valid_header (0x10 :: 0x01 :: hi :: lo :: rest) = .error .InvalidFrame := by
    unfold is_valid_header
    simp only [SSTP_VERSION, ne_eq, not_true_eq_false, if_false]
    rw [if_pos (Or.inl hlen)]
  refine ⟨hbad, ?_⟩
  unfold sstp_decode
  rw [hbad]

/-- A header with version 0x10, reserved 0x01 and declared length 0x0005 in front of at least
one more byte passes header validation, and the packet codec returns a control packet whose
payload is that one byte. -/
theorem decode_length_five_packet (b : Nat) (tail : List Nat) :
    is_valid_header (0x10 :: 0x01 :: 0x00 :: 0x05 :: b :: tail) = .ok () ∧
    sstp_decode (0x10 :: 0x01 :: 0x00 :: 0x05 :: b :: tail) =
      .ok ⟨.SSTP_CONTROL_PACKET, [b]⟩ := by
  have hgood : is_valid_header (0x10 :: 0x01 :: 0x00 :: 0x05 :: b :: tail) = .ok () := by
    unfold is_valid_header
    simp [SSTP_VERSION, SSTP_MIN_LEN, SSTP_MAX_BUFFER_SIZE, be16]
  refine ⟨hgood, ?_⟩
  unfold sstp_decode
  rw [hgood]
  simp [is_control_packet, packet_types.code, header_sizeof, be16]

/-- C9 (counterexample): the declared length 0x0005 is not less than the minimum header size:
`SSTP_MIN_LEN` is 4, the size of `sstp_header_t`, and 4 ≤ 5 ≤ 1024; header validation of the
scenario packet with its length changed to 0x0005 does not fail. -/
theorem length_five_not_below_min_counterexample :
    ¬ (be16 0x00 0x05 < SSTP_MIN_LEN) ∧
    SSTP_MIN_LEN = 4 ∧
    struct_sizeof sstp_header_t = SSTP_MIN_LEN ∧
    be16 0x00 0x05 ≤ SSTP_MAX_BUFFER_SIZE ∧
    is_valid_header [0x10, 0x01, 0x00, 0x05, 0x00, 0x01, 0x00, 0x01,
      0x00, 0x01, 0x00, 0x06, 0x00, 0x01] = .ok () := by
  refine ⟨by decide, rfl, by decide, by decide, rfl⟩

/-- C9 (amended): a packet header with version 0x10, reserved 0x01 and declared length 0x0005
declares a length that is not less than the minimum header size `SSTP_MIN_LEN` = 4 but less
than the 8 bytes of packet header plus control header; decoding fails on every buffer with an
error reported as InvalidFrameReceived, and whenever the five declared bytes are present header
validation accepts the length and decoding fails with InvalidFrame, the one-byte payload being
too short for the control header. -/
theorem decode_length_five_invalid_frame (rest : List Nat) :
    SSTP_MIN_LEN ≤ be16 0x00 0x05 ∧
    be16 0x00 0x05 < struct_sizeof sstp_header_t + struct_sizeof sstp_control_header_t ∧
    struct_sizeof sstp_header_t + struct_sizeof sstp_control_header_t = 8 ∧
    (∃ e, sstp_decode_message (0x10 :: 0x01 :: 0x00 :: 0x05 :: rest) = .error e ∧
      e.condition = .InvalidFrameReceived) ∧
    (∀ (b : Nat) (tail : List Nat),
      is_valid_header (0x10 :: 0x01 :: 0x00 :: 0x05 :: b :: tail) = .ok () ∧
      sstp_decode (0x10 :: 0x01 :: 0x00 :: 0x05 :: b :: tail) =
        .ok ⟨.SSTP_CONTROL_PACKET, [b]⟩ ∧
      [b].length < struct_sizeof sstp_control_header_t ∧
      sstp_decode_control [b] = .error .InvalidFrame ∧
      sstp_decode_message (0x10 :: 0x01 :: 0x00 :: 0x05 :: b :: tail) =
        .error .InvalidFrame) := by
  have hmsg : ∀ (b : Nat) (tail : List Nat),
      sstp_decode_message (0x10 :: 0x01 :: 0x00 :: 0x05 :: b :: tail) =
        .error .InvalidFrame := by
    intro b tail
    unfold sstp_decode_message
    rw [(decode_length_five_packet b tail).2]
    rfl
  refine ⟨by decide, by decide, by decide, ?_, ?_⟩
  · cases rest with
    | nil => exact ⟨.Truncated, rfl, rfl⟩
    | cons b tail => exact ⟨.InvalidFrame, hmsg b tail, rfl⟩
  · intro b tail
    have hshort : 1 < struct_sizeof sstp_control_header_t := by decide
    exact ⟨(decode_length_five_packet b tail).1, (decode_length_five_packet b tail).2,
      hshort, rfl, hmsg b tail⟩

/-- C10: whenever the attribute decoder reaches an attribute header whose declared
`packet_length` is below 4, the size of the attribute header itself (0x0003 in particular),
after any well-formed attributes and with at least one attribute still to read, decoding fails
with InvalidAttribValueLength, whose status code is 0x00000003. -/
theorem decode_attributes_length_below_header (pre : List Attribute)
    (count r id hi lo : Nat) (rest : List Nat)
    (hpre : ∀ a ∈ pre, a.value.length + 4 < 2 ^ 16)
    (hcount : pre.length < count)
    (hlen : be16 hi lo < 4) :
    struct_sizeof sstp_attribute_header_t = 4 ∧
    sstp_decode_attributes count (encode_attributes pre ++ r :: id :: hi :: lo :: rest) =
      .error .InvalidAttribValueLength ∧
    DecodeError.InvalidAttribValueLength.condition = .InvalidAttribValueLength ∧
    DecodeError.InvalidAttribValueLength.condition.status.code = 0x00000003 := by
  refine ⟨attribute_header_sizeof, ?_, rfl, rfl⟩
  induction pre generalizing count with
  | nil =>
    obtain ⟨n, rfl⟩ : ∃ n, count = n + 1 := ⟨count - 1, by simp at hcount; omega⟩
    exact decode_attributes_short_head n r id hi lo rest hlen
  | cons a pre ih =>
    obtain ⟨n, rfl⟩ : ∃ n, count = n + 1 := ⟨count - 1, by simp at hcount; omega⟩
    have hn : pre.length < n := by simp at hcount; omega
    have ha : a.value.length + 4 < 2 ^ 16 := hpre a (List.mem_cons_self a pre)
    have hrest := ih n (fun x hx => hpre x (List.mem_cons_of_mem a hx)) hn
    simp only [encode_attributes, List.append_assoc]
    exact decode_attributes_skip n a _ ha _ hrest

/-- Witness for C10: one Encapsulated-Protocol-Id attribute followed by a header declaring
`packet_length` 0x0003, with two attributes announced. -/
theorem decode_attributes_length_below_header_witness :
    (∀ a ∈ [(⟨0x01, [0x00, 0x01]⟩ : Attribute)], a.value.length + 4 < 2 ^ 16) ∧
    [(⟨0x01, [0x00, 0x01]⟩ : Attribute)].length < 2 ∧
    be16 0x00 0x03 < 4 ∧
    (struct_sizeof sstp_attribute_header_t = 4 ∧
    sstp_decode_attributes 2
      (encode_attributes [⟨0x01, [0x00, 0x01]⟩] ++ 0x00 :: 0x01 :: 0x00 :: 0x03 :: []) =
      .error .InvalidAttribValueLength ∧
    DecodeError.InvalidAttribValueLength.condition = .InvalidAttribValueLength ∧
    DecodeError.InvalidAttribValueLength.condition.status.code = 0x00000003) :=
  ⟨by decide, by decide, by decide,
    decode_attributes_length_below_header [⟨0x01, [0x00, 0x01]⟩] 2 0x00 0x01 0x00 0x03 []
      (by decide) (by decide) (by decide)⟩

/-- C11 (counterexample): the scenario packet is 14 bytes long but declares the length 0x000C;
its payload is cut after 8 bytes, the attribute declaring `packet_length` 0x0006 runs past the
4 bytes left, and decoding fails with InvalidAttribValueLength instead of yielding a message. -/
theorem decode_scenario_length_twelve_counterexample :
    sstp_decode [0x10, 0x01, 0x00, 0x0C, 0x00, 0x01, 0x00, 0x01,
      0x00, 0x01, 0x00, 0x06, 0x00, 0x01] =
      .ok ⟨.SSTP_CONTROL_PACKET, [0x00, 0x01, 0x00, 0x01, 0x00, 0x01, 0x00, 0x06]⟩ ∧
    sstp_decode_attributes 1 [0x00, 0x01, 0x00, 0x06] = .error .InvalidAttribValueLength ∧
    sstp_decode_message [0x10, 0x01, 0x00, 0x0C, 0x00, 0x01, 0x00, 0x01,
      0x00, 0x01, 0x00, 0x06, 0x00, 0x01] = .error .InvalidAttribValueLength ∧
    sstp_decode_message [0x10, 0x01, 0x00, 0x0C, 0x00, 0x01, 0x00, 0x01,
      0x00, 0x01, 0x00, 0x06, 0x00, 0x01] ≠
      .ok (.control ⟨.SSTP_MSG_CALL_CONNECT_REQUEST, [⟨0x01, [0x00, 0x01]⟩]⟩) := by
  refine ⟨rfl, rfl, rfl, ?_⟩
  intro h
  have h2 : sstp_decode_message [0x10, 0x01, 0x00, 0x0C, 0x00, 0x01, 0x00, 0x01,
      0x00, 0x01, 0x00, 0x06, 0x00, 0x01] = .error .InvalidAttribValueLength := rfl
  rw [h2] at h
  cases h

/-- C11 (amended): the packet made of version 0x10, reserved 0x01 (control), length 0x000E (the
14 bytes it consists of, which is also the length the encoder writes), control header with
message type 0x0001 and one attribute, and the attribute with reserved 0x00, id 0x01,
`packet_length` 0x0006 and value 0x0001 decodes without error into a Call-Connect-Request
message with exactly one attribute, of type Encapsulated-Protocol-Id and value 1, the PPP
protocol id. -/
theorem decode_call_connect_request :
    [0x10, 0x01, 0x00, 0x0E, 0x00, 0x01, 0x00, 0x01,
      0x00, 0x01, 0x00, 0x06, 0x00, 0x01].length = be16 0x00 0x0E ∧
    send_sstp_packet .SSTP_CONTROL_PACKET
      [0x00, 0x01, 0x00, 0x01, 0x00, 0x01, 0x00, 0x06, 0x00, 0x01] =
      .ok [0x10, 0x01, 0x00, 0x0E, 0x00, 0x01, 0x00, 0x01,
        0x00, 0x01, 0x00, 0x06, 0x00, 0x01] ∧
    sstp_decode_message [0x10, 0x01, 0x00, 0x0E, 0x00, 0x01, 0x00, 0x01,
      0x00, 0x01, 0x00, 0x06, 0x00, 0x01] =
      .ok (.control ⟨.SSTP_MSG_CALL_CONNECT_REQUEST, [⟨0x01, [0x00, 0x01]⟩]⟩) ∧
    control_messages_types.SSTP_MSG_CALL_CONNECT_REQUEST.code = be16 0x00 0x01 ∧
    [(⟨0x01, [0x00, 0x01]⟩ : Attribute)].length = 1 ∧
    attr_types.of_code 0x01 = some .SSTP_ATTRIB_ENCAPSULATED_PROTOCOL_ID ∧
    has_unrecognized_attribute [⟨0x01, [0x00, 0x01]⟩] = false ∧
    be16 0x00 0x01 = sstp_encapsulated_protocol_types.SSTP_ENCAPSULATED_PROTOCOL_PPP.code ∧
    sstp_encapsulated_protocol_types.SSTP_ENCAPSULATED_PROTOCOL_PPP.code = 1 := by
  refine ⟨rfl, rfl, rfl, rfl, rfl, rfl, rfl, rfl, rfl⟩

/-- C12: for every packet (kind Data or Control) whose header plus payload is at most
`SSTP_MAX_BUFFER_SIZE` bytes, encoding succeeds and decoding the encoded bytes yields the same
packet, kind and payload. -/
theorem packet_round_trip (P : Packet)
    (hsize : struct_sizeof sstp_header_t + P.payload.length ≤ SSTP_MAX_BUFFER_SIZE) :
    ∃ bytes, send_sstp_packet P.kind P.payload = .ok bytes ∧ sstp_decode bytes = .ok P := by
  obtain ⟨kind, payload⟩ := P
  simp only [header_sizeof, SSTP_MAX_BUFFER_SIZE] at hsize
  refine ⟨SSTP_VERSION :: kind.code :: (4 + payload.length) / 256 % 256 ::
    (4 + payload.length) % 256 :: payload, ?_, ?_⟩
  · unfold send_sstp_packet
    simp only [header_sizeof, SSTP_MAX_BUFFER_SIZE]
    rw [if_neg (by omega)]
  · have hbe : be16 ((4 + payload.length) / 256 % 256) ((4 + payload.length) % 256) =
        4 + payload.length := by
      unfold be16; omega
    have hvalid : is_valid_header (SSTP_VERSION :: kind.code ::
        (4 + payload.length) / 256 % 256 :: (4 + payload.length) % 256 :: payload) = .ok () := by
      unfold is_valid_header
      simp only [hbe, SSTP_MIN_LEN, SSTP_MAX_BUFFER_SIZE, List.length_cons, ne_eq,
        not_true_eq_false, if_false]
      rw [if_neg (by omega), if_neg (by omega)]
    unfold sstp_decode
    rw [hvalid]
    simp only [hbe, header_sizeof, Nat.add_sub_cancel_left, List.take_length]
    cases kind <;> rfl

/-- Witness for C12: a control packet with a four-byte payload. -/
theorem packet_round_trip_witness :
    struct_sizeof sstp_header_t +
      (⟨.SSTP_CONTROL_PACKET, [0x00, 0x08, 0x00, 0x00]⟩ : Packet).payload.length ≤
      SSTP_MAX_BUFFER_SIZE ∧
    ∃ bytes, send_sstp_packet (⟨.SSTP_CONTROL_PACKET, [0x00, 0x08, 0x00, 0x00]⟩ : Packet).kind
        (⟨.SSTP_CONTROL_PACKET, [0x00, 0x08, 0x00, 0x00]⟩ : Packet).payload = .ok bytes ∧
      sstp_decode bytes = .ok ⟨.SSTP_CONTROL_PACKET, [0x00, 0x08, 0x00, 0x00]⟩ :=
  ⟨by decide, packet_round_trip ⟨.SSTP_CONTROL_PACKET, [0x00, 0x08, 0x00, 0x00]⟩ (by decide)⟩

/-- Masking with a single bit is non-zero exactly when that bit is set. -/
theorem and_two_pow_ne_zero (x i : Nat) : x &&& 2 ^ i ≠ 0 ↔ x.testBit i = true := by
  constructor
  · intro h
    by_contra hb
    apply h
    apply Nat.eq_of_testBit_eq
    intro j
    rw [Nat.testBit_and, Nat.testBit_two_pow, Nat.zero_testBit]
    by_cases hij : i = j
    · subst hij
      simp only [Bool.not_eq_true] at hb
      simp [hb]
    · simp [hij]
  · intro hb h
    have h2 : (x &&& 2 ^ i).testBit i = true := by
      rw [Nat.testBit_and, Nat.testBit_two_pow_self, hb]; rfl
    rw [h, Nat.zero_testBit] at h2
    cases h2

/-- The choice of `select_algorithm` in terms of the bits of the offered bitmask. -/
theorem select_algorithm_eq (m : Nat) :
    select_algorithm m =
      if m.testBit 1 = true then .ok .CERT_HASH_PROTOCOL_SHA256
      else if m.testBit 0 = true then .ok .CERT_HASH_PROTOCOL_SHA1
      else .error .ValueNotSupported := by
  have h256 : (m % 2 ^ 8) &&& crypto_req_attrs.CERT_HASH_PROTOCOL_SHA256.code ≠ 0 ↔
      m.testBit 1 = true := by
    have h := and_two_pow_ne_zero (m % 2 ^ 8) 1
    rw [Nat.testBit_mod_two_pow] at h
    simpa [crypto_req_attrs.code] using h
  have h1 : (m % 2 ^ 8) &&& crypto_req_attrs.CERT_HASH_PROTOCOL_SHA1.code ≠ 0 ↔
      m.testBit 0 = true := by
    have h := and_two_pow_ne_zero (m % 2 ^ 8) 0
    rw [Nat.testBit_mod_two_pow] at h
    simpa [crypto_req_attrs.code] using h
  unfold select_algorithm
  by_cases hb1 : m.testBit 1 = true
  · rw [if_pos hb1, if_pos (h256.mpr hb1)]
  · rw [if_neg hb1, if_neg (fun h => hb1 (h256.mp h))]
    by_cases hb0 : m.testBit 0 = true
    · rw [if_pos hb0, if_pos (h1.mpr hb0)]
    · rw [if_neg hb0, if_neg (fun h => hb0 (h1.mp h))]

/-- C13: for every offered bitmask, algorithm selection returns SHA-256 when bit 1 (0x02) is
set, otherwise SHA-1 when bit 0 (0x01) is set, and otherwise fails with ValueNotSupported, whose
status code is 4; SHA-256 is chosen whenever both bits are set, and a bitmask whose low byte is
zero is rejected. -/
theorem select_algorithm_prefers_sha256 (m : Nat) :
    select_algorithm m =
      (if m.testBit 1 = true then .ok .CERT_HASH_PROTOCOL_SHA256
       else if m.testBit 0 = true then .ok .CERT_HASH_PROTOCOL_SHA1
       else .error .ValueNotSupported) ∧
    crypto_req_attrs.CERT_HASH_PROTOCOL_SHA256.code = 2 ^ 1 ∧
    crypto_req_attrs.CERT_HASH_PROTOCOL_SHA1.code = 2 ^ 0 ∧
    ErrorCondition.ValueNotSupported.status.code = 4 ∧
    select_algorithm (m ||| crypto_req_attrs.CERT_HASH_PROTOCOL_SHA1.code |||
      crypto_req_attrs.CERT_HASH_PROTOCOL_SHA256.code) = .ok .CERT_HASH_PROTOCOL_SHA256 ∧
    select_algorithm (2 ^ 8 * m) = .error .ValueNotSupported := by
  refine ⟨select_algorithm_eq m, rfl, rfl, rfl, ?_, ?_⟩
  · rw [select_algorithm_eq]
    have hb : (m ||| crypto_req_attrs.CERT_HASH_PROTOCOL_SHA1.code |||
        crypto_req_attrs.CERT_HASH_PROTOCOL_SHA256.code).testBit 1 = true := by
      rw [Nat.testBit_or]
      have : (crypto_req_attrs.CERT_HASH_PROTOCOL_SHA256.code).testBit 1 = true := by decide
      rw [this, Bool.or_true]
    rw [if_pos hb]
  · rw [select_algorithm_eq]
    have hb1 : (2 ^ 8 * m).testBit 1 = false := by
      rw [Nat.testBit_to_div_mod]; simp; omega
    have hb0 : (2 ^ 8 * m).testBit 0 = false := by
      rw [Nat.testBit_to_div_mod]; simp; omega
    rw [hb1, hb0]
    rfl

/-! ## Client context and name tables -/

/-- C14: `client_status` has exactly the four states Disconnected, ConnectRequestSent,
ConnectAckReceived and Connected, with pairwise distinct codes 0..3 that fit in the one-byte
`state` member of `sstp_context_t`; Disconnected has code 0, so a zeroed `state` member denotes
the initial state Disconnected. -/
theorem client_status_codes :
    (∀ s : client_status, s ∈ client_status.all) ∧
    client_status.all.length = 4 ∧
    client_status.all =
      [.CLIENT_CALL_DISCONNECTED, .CLIENT_CONNECT_REQUEST_SENT, .CLIENT_CONNECT_ACK_RECEIVED,
       .CLIENT_CALL_CONNECTED] ∧
    client_status.all.map client_status.code = [0, 1, 2, 3] ∧
    (∀ a b : client_status, a.code = b.code → a = b) ∧
    field_bits sstp_context_t "state" = some 8 ∧
    field_offset sstp_context_t "state" = some 0 ∧
    (∀ s : client_status, s.code < 2 ^ 8) ∧
    client_status.CLIENT_CALL_DISCONNECTED.code = 0 ∧
    client_status.of_code 0 = some .CLIENT_CALL_DISCONNECTED := by
  refine ⟨?_, rfl, rfl, rfl, ?_, by decide, by decide, ?_, rfl, by decide⟩
  · intro s; cases s <;> decide
  · intro a b; cases a <;> cases b <;> decide
  · intro s; cases s <;> decide

/-- C15: the name tables `control_messages_types_str`, `attr_types_str`, `attrib_status_str` and
`client_status_str` are synchronised with their enumerations: for every enumerator, its numeric
value is within the bounds of the table and the entry at that index is the enumerator's name. -/
theorem name_tables_synchronised :
    (∀ m : control_messages_types,
      m.code < control_messages_types_str.length ∧
      control_messages_types_str[m.code]? = some m.name) ∧
    (∀ t : attr_types,
      t.code < attr_types_str.length ∧ attr_types_str[t.code]? = some t.name) ∧
    (∀ s : attr_status, s ∈ attr_status.all) ∧
    (∀ s : attr_status,
      s.code < attrib_status_str.length ∧ attrib_status_str[s.code]? = some s.name) ∧
    (∀ c : client_status,
      c.code < client_status_str.length ∧ client_status_str[c.code]? = some c.name) := by
  refine ⟨?_, ?_, ?_, ?_, ?_⟩
  · intro m; cases m <;> decide
  · intro t; cases t <;> decide
  · intro s; cases s <;> decide
  · intro s; cases s <;> decide
  · intro c; cases c <;> decide

/-- C16 (the code at the failing inputs): `crypto_req_attrs_str` has two entries and no
placeholder at index 0, although its selectors are numbered 1 and 2: the value of
`CERT_HASH_PROTOCOL_SHA256` is outside the table and the entry at the value of
`CERT_HASH_PROTOCOL_SHA1` is the name of the other selector; `control_messages_types_str`,
whose enumeration also starts at 1, has the placeholder. -/
theorem crypto_req_attrs_str_misaligned :
    crypto_req_attrs_str.length = 2 ∧
    crypto_req_attrs.CERT_HASH_PROTOCOL_SHA256.code = 2 ∧
    ¬ (crypto_req_attrs.CERT_HASH_PROTOCOL_SHA256.code < crypto_req_attrs_str.length) ∧
    crypto_req_attrs_str[crypto_req_attrs.CERT_HASH_PROTOCOL_SHA256.code]? = none ∧
    crypto_req_attrs.CERT_HASH_PROTOCOL_SHA1.code = 1 ∧
    crypto_req_attrs_str[crypto_req_attrs.CERT_HASH_PROTOCOL_SHA1.code]? =
      some crypto_req_attrs.CERT_HASH_PROTOCOL_SHA256.name ∧
    crypto_req_attrs_str[crypto_req_attrs.CERT_HASH_PROTOCOL_SHA1.code]? ≠
      some crypto_req_attrs.CERT_HASH_PROTOCOL_SHA1.name ∧
    control_messages_types_str[0]? = some "" ∧
    control_messages_types.SSTP_MSG_CALL_CONNECT_REQUEST.code = 1 := by
  refine ⟨rfl, rfl, by decide, by decide, rfl, by decide, by decide, by decide, rfl⟩

/-- C17: the context can hold every binding value: its `nonce`, `certhash` and `cmac` members are
32 bytes each, as in the crypto-binding body; the 16-byte nonce of a crypto-binding request fits
in the context nonce; and every bitmask built from the hash selectors is unchanged when the
32-bit `hash_bitmask` is narrowed to the 8-bit `hash_algorithm` member. -/
theorem context_holds_binding_values :
    (field_size sstp_context_t "nonce" = some 32 ∧
      field_size sstp_attribute_crypto_bind_t "nonce" = some 32) ∧
    (field_size sstp_context_t "certhash" = some 32 ∧
      field_size sstp_attribute_crypto_bind_t "certhash" = some 32) ∧
    (field_size sstp_context_t "cmac" = some 32 ∧
      field_size sstp_attribute_crypto_bind_t "cmac" = some 32) ∧
    field_size sstp_attribute_crypto_bind_req_t "nonce" = some 16 ∧
    (∃ r c, field_size sstp_attribute_crypto_bind_req_t "nonce" = some r ∧
      field_size sstp_context_t "nonce" = some c ∧ r ≤ c) ∧
    field_bits sstp_attribute_crypto_bind_req_t "hash_bitmask" = some 32 ∧
    field_bits sstp_attribute_crypto_bind_t "hash_bitmask" = some 32 ∧
    field_bits sstp_context_t "hash_algorithm" = some 8 ∧
    (∀ s : List crypto_req_attrs,
      hash_bitmask_of s % 2 ^ 32 % 2 ^ 8 = hash_bitmask_of s) := by
  refine ⟨⟨by decide, by decide⟩, ⟨by decide, by decide⟩, ⟨by decide, by decide⟩, by decide,
    ⟨16, 32, by decide, by decide, by decide⟩, by decide, by decide, by decide, ?_⟩
  intro s
  have h := hash_bitmask_of_lt s
  rw [Nat.mod_eq_of_lt (by omega), Nat.mod_eq_of_lt (by omega)]

/-- Declared lengths of at least four bytes each add up to at least four times their number. -/
theorem four_mul_length_le_sum (lens : List Nat) (hmin : ∀ l ∈ lens, 4 ≤ l) :
    4 * lens.length ≤ lens.sum := by
  induction lens with
  | nil => simp
  | cons l ls ih =>
    have hl : 4 ≤ l := hmin l (List.mem_cons_self l ls)
    have hls := ih (fun x hx => hmin x (List.mem_cons_of_mem l hx))
    simp only [List.length_cons, List.sum_cons]
    omega

/-- C18: in a control packet of at most `SSTP_MAX_BUFFER_SIZE` = 1024 bytes whose attributes
each declare a length of at least the 4-byte attribute header, the number of attributes is at
most (1024 - 4 - 4) / 4 = 254, which is below `SSTP_MAX_ATTR` = 256; the 16-bit
`num_attributes` member can nevertheless declare counts above `SSTP_MAX_ATTR`. -/
theorem attribute_count_bounded (lens : List Nat)
    (hmin : ∀ l ∈ lens, struct_sizeof sstp_attribute_header_t ≤ l)
    (htotal : struct_sizeof sstp_header_t + struct_sizeof sstp_control_header_t + lens.sum ≤
      SSTP_MAX_BUFFER_SIZE) :
    lens.length ≤ (SSTP_MAX_BUFFER_SIZE - struct_sizeof sstp_header_t -
      struct_sizeof sstp_control_header_t) / struct_sizeof sstp_attribute_header_t ∧
    (SSTP_MAX_BUFFER_SIZE - struct_sizeof sstp_header_t -
      struct_sizeof sstp_control_header_t) / struct_sizeof sstp_attribute_header_t =
      (1024 - 4 - 4) / 4 ∧
    (1024 - 4 - 4) / 4 = 254 ∧
    254 < SSTP_MAX_ATTR ∧
    SSTP_MAX_ATTR = 256 ∧
    field_bits sstp_control_header_t "num_attributes" = some 16 ∧
    (∃ n, n < 2 ^ 16 ∧ SSTP_MAX_ATTR < n) := by
  have hc : struct_sizeof sstp_control_header_t = 4 := by decide
  rw [attribute_header_sizeof] at hmin
  rw [header_sizeof, hc] at htotal
  have hsum := four_mul_length_le_sum lens hmin
  have hmax : SSTP_MAX_BUFFER_SIZE = 1024 := rfl
  rw [hmax] at htotal
  refine ⟨?_, by decide, by decide, by decide, rfl, by decide, ⟨257, by decide, by decide⟩⟩
  rw [header_sizeof, hc, attribute_header_sizeof, hmax]
  omega

/-- Witness for C18: a control packet with one six-byte attribute. -/
theorem attribute_count_bounded_witness :
    (∀ l ∈ [6], struct_sizeof sstp_attribute_header_t ≤ l) ∧
    struct_sizeof sstp_header_t + struct_sizeof sstp_control_header_t + [6].sum ≤
      SSTP_MAX_BUFFER_SIZE ∧
    ([6].length ≤ (SSTP_MAX_BUFFER_SIZE - struct_sizeof sstp_header_t -
      struct_sizeof sstp_control_header_t) / struct_sizeof sstp_attribute_header_t ∧
    (SSTP_MAX_BUFFER_SIZE - struct_sizeof sstp_header_t -
      struct_sizeof sstp_control_header_t) / struct_sizeof sstp_attribute_header_t =
      (1024 - 4 - 4) / 4 ∧
    (1024 - 4 - 4) / 4 = 254 ∧
    254 < SSTP_MAX_ATTR ∧
    SSTP_MAX_ATTR = 256 ∧
    field_bits sstp_control_header_t "num_attributes" = some 16 ∧
    (∃ n, n < 2 ^ 16 ∧ SSTP_MAX_ATTR < n)) :=
  ⟨by decide, by decide, attribute_count_bounded [6] (by decide) (by decide)⟩

end Sstp
